import Mathlib

/-!
Shallow embedding of the `splashsurf` CLI orchestrator
(`src/splashsurf/src/main.rs`): path resolution and sequence expansion
(`ReconstructionRunnerPathCollection`), parameter translation
(`ReconstructionRunnerArgs`), logging initialization and the sequential
task dispatcher (`reconstruct_subcommand`).

Modelling conventions:
* Rust `f64` fields are embedded as `ℚ`; the code only copies and
  multiplies these values, so the field-level dataflow is preserved.
* Rust `PathBuf` is embedded as `RPath`, a list of path components.
  `parent`, `file_name`, `file_stem` and `join` follow the Rust
  semantics on the ordinary relative paths the tool manipulates.
* The filesystem is passed in explicitly as two oracles
  `is_file, is_dir : RPath → Bool`; `fs::create_dir_all` (a side
  effect whose result value does not flow into the returned data) is
  modelled as succeeding.
* `anyhow` errors are embedded as their formatted message strings.
* The unbounded `loop` in `collect` is given explicit fuel; every
  theorem about it supplies enough fuel for the run it describes.
-/

namespace Splashsurf

/-- The literal two-character sequence placeholder token `\x7b\x7d` used by the CLI. -/
def placeholder : String := "\x7b\x7d"

/-- Embedding of Rust `str::replace` on character lists: replace every
(leftmost, non-overlapping) occurrence of `pat` by `rep`. An empty
pattern is left alone (the CLI only ever replaces the two-character
placeholder token). The `fuel` argument makes the recursion structural;
each step consumes at least one character, so `fuel = s.length` is
always enough. -/
def replaceAllCharsAux : Nat → List Char → List Char → List Char → List Char
  | 0, s, _, _ => s
  | _ + 1, [], _, _ => []
  | fuel + 1, c :: s', pat, rep =>
    if pat ≠ [] ∧ pat.isPrefixOf (c :: s') then
      rep ++ replaceAllCharsAux fuel ((c :: s').drop pat.length) pat rep
    else
      c :: replaceAllCharsAux fuel s' pat rep

/-- Embedding of Rust `str::replace` on strings. -/
def strReplace (s pat rep : String) : String :=
  ⟨replaceAllCharsAux s.data.length s.data pat.data rep.data⟩

/-- Occurrence test on character lists: does `pat` occur as a contiguous
sublist of `s`? Embeds Rust `str::contains` for string patterns. -/
def containsSubChars (s pat : List Char) : Bool :=
  pat.isPrefixOf s ||
    match s with
    | [] => false
    | _ :: s' => containsSubChars s' pat

/-- Embedding of Rust `str::contains` for string patterns. -/
def strContainsSub (s pat : String) : Bool :=
  containsSubChars s.data pat.data

/-- Embedding of Rust `Path::file_stem` applied to a filename: the part
before the last `.`, except that a lone leading `.` belongs to the stem. -/
def stemOf (name : String) : String :=
  let r := name.data.reverse
  match r.findIdx? (· = '.') with
  | none => name
  | some k =>
    if k = r.length - 1 then name
    else ⟨name.data.take (r.length - 1 - k)⟩

/-- Embedding of Rust `PathBuf` as the list of path components (all the
paths the tool manipulates are ordinary relative paths). -/
structure RPath where
  components : List String
deriving DecidableEq, Repr

/-- The empty path, `Path::new("")`: what Rust calls the current directory here. -/
def RPath.empty : RPath := ⟨[]⟩

/-- A path made of a single filename component (Rust `String` → `PathBuf`). -/
def RPath.ofName (s : String) : RPath := ⟨[s]⟩

/-- Embedding of Rust `Path::join` with a relative right operand. -/
def RPath.join (p q : RPath) : RPath := ⟨p.components ++ q.components⟩

/-- Embedding of Rust `Path::parent`: `none` on the empty path, otherwise
the path with the last component removed. -/
def RPath.parent (p : RPath) : Option RPath :=
  match p.components with
  | [] => none
  | _ => some ⟨p.components.dropLast⟩

/-- Embedding of Rust `Path::file_name`: the last component, if any. -/
def RPath.file_name (p : RPath) : Option String :=
  p.components.getLast?

/-- Rust `.parent().unwrap()` as used in `collect`; the collections built
by `try_from` always have a nonempty input path, so the default is never hit. -/
def RPath.parentD (p : RPath) : RPath :=
  (p.parent).getD RPath.empty

/-- Rust `.file_name().unwrap()` as used in `collect`; same remark as for
`RPath.parentD`. -/
def RPath.file_nameD (p : RPath) : String :=
  (p.file_name).getD ""

/-- Embedding of Rust `Path::display`: components joined by `/`. -/
def RPath.display (p : RPath) : String :=
  String.intercalate "/" p.components

/-- The fields of `ReconstructSubcommandArgs` (the raw command-line
options of the `reconstruct` subcommand). -/
structure ReconstructSubcommandArgs where
  input_file : RPath
  output_file : Option RPath
  output_dir : Option RPath
  particle_radius : ℚ
  rest_density : ℚ
  kernel_radius : ℚ
  splash_detection_radius : Option ℚ
  cube_size : ℚ
  surface_threshold : ℚ
  use_double_precision : Bool
  domain_min : Option (List ℚ)
  domain_max : Option (List ℚ)
  no_octree : Bool
  no_stitching : Bool
  octree_max_particles : Option Nat
  octree_ghost_margin_factor : Option ℚ
  output_dm_points : Option RPath
  output_dm_grid : Option RPath
  output_octree : Option RPath
  parallelize_over_files : Bool
  parallelize_over_particles : Bool
  num_threads : Option Nat
deriving DecidableEq, Repr

/-- The `ReconstructionRunnerPathCollection` struct: the resolved input
specification before expansion into per-file tasks. -/
structure ReconstructionRunnerPathCollection where
  is_sequence : Bool
  input_file : RPath
  output_file : RPath
  output_density_map_points_file : Option RPath
  output_density_map_grid_file : Option RPath
  output_octree_file : Option RPath
deriving DecidableEq, Repr

/-- The `ReconstructionRunnerPaths` struct: all file paths of one
reconstruction task. -/
structure ReconstructionRunnerPaths where
  input_file : RPath
  output_file : RPath
  output_density_map_points_file : Option RPath
  output_density_map_grid_file : Option RPath
  output_octree_file : Option RPath
deriving DecidableEq, Repr

/-- The `ReconstructionRunnerPaths::new` constructor. -/
def ReconstructionRunnerPaths.new (input_file output_file : RPath)
    (output_density_map_points_file output_density_map_grid_file
      output_octree_file : Option RPath) : ReconstructionRunnerPaths :=
  { input_file, output_file, output_density_map_points_file,
    output_density_map_grid_file, output_octree_file }

/-- `ReconstructionRunnerPathCollection::try_new`. If an output base path
is given, every output path is joined against it. The
`fs::create_dir_all` call for a missing output directory is a side
effect whose result does not flow into the returned value; it is
modelled as succeeding. -/
def ReconstructionRunnerPathCollection.try_new (is_sequence : Bool)
    (input_file : RPath) (output_base_path : Option RPath) (output_file : RPath)
    (output_density_map_points_file output_density_map_grid_file
      output_octree_file : Option RPath) :
    Except String ReconstructionRunnerPathCollection :=
  match output_base_path with
  | some output_base_path =>
    .ok { is_sequence, input_file
          output_file := output_base_path.join output_file
          output_density_map_points_file :=
            output_density_map_points_file.map (fun f => output_base_path.join f)
          output_density_map_grid_file :=
            output_density_map_grid_file.map (fun f => output_base_path.join f)
          output_octree_file :=
            output_octree_file.map (fun f => output_base_path.join f) }
  | none =>
    .ok { is_sequence, input_file, output_file,
          output_density_map_points_file, output_density_map_grid_file,
          output_octree_file }

/-- The sequence-expansion `loop` inside
`ReconstructionRunnerPathCollection::collect`: starting at index `i`,
substitute the index for the placeholder in the input filename; while
the resulting file exists, emit one task (with the index substituted
into the output filename and the three diagnostic outputs suppressed)
and move to the next index; stop at the first missing index. `fuel`
bounds the number of loop iterations (the Rust loop is unbounded). -/
def collect_sequence (is_file : RPath → Bool) (input_dir output_dir : RPath)
    (input_filename output_filename : String) :
    Nat → Nat → List ReconstructionRunnerPaths
  | 0, _ => []
  | fuel + 1, i =>
    let input_filename_i := strReplace input_filename placeholder (toString i)
    let input_file_i := input_dir.join (RPath.ofName input_filename_i)
    if is_file input_file_i then
      let output_filename_i := strReplace output_filename placeholder (toString i)
      let output_file_i := output_dir.join (RPath.ofName output_filename_i)
      ReconstructionRunnerPaths.new input_file_i output_file_i none none none ::
        collect_sequence is_file input_dir output_dir input_filename
          output_filename fuel (i + 1)
    else
      []

/-- `ReconstructionRunnerPathCollection::collect`: one task per input
file. In sequence mode this runs the expansion loop from index 1; in
single-file mode it returns the one task (`vec![...; 1]`) carrying the
diagnostic output paths through. -/
def ReconstructionRunnerPathCollection.collect (is_file : RPath → Bool)
    (fuel : Nat) (self : ReconstructionRunnerPathCollection) :
    List ReconstructionRunnerPaths :=
  if self.is_sequence then
    collect_sequence is_file self.input_file.parentD self.output_file.parentD
      self.input_file.file_nameD self.output_file.file_nameD fuel 1
  else
    [ReconstructionRunnerPaths.new self.input_file self.output_file
      self.output_density_map_points_file self.output_density_map_grid_file
      self.output_octree_file]

/-- `TryFrom<&ReconstructSubcommandArgs> for ReconstructionRunnerPathCollection`:
decide single-file vs. sequence mode, derive the output filename, and
validate a sequence pattern (parent directory exists unless it is the
current directory; filename contains the placeholder). -/
def ReconstructionRunnerPathCollection.try_from (is_file is_dir : RPath → Bool)
    (args : ReconstructSubcommandArgs) :
    Except String ReconstructionRunnerPathCollection :=
  let output_suffix := "surface"
  if is_file args.input_file then
    let output_file : RPath :=
      match args.output_file with
      | some output_file => output_file
      | none =>
        let input_stem := stemOf args.input_file.file_nameD
        RPath.ofName (input_stem ++ "_" ++ output_suffix ++ ".vtk")
    ReconstructionRunnerPathCollection.try_new false args.input_file
      args.output_dir output_file args.output_dm_points args.output_dm_grid
      args.output_octree
  else
    match args.input_file.file_name with
    | none =>
      .error ("The input file path \x27" ++
        (args.input_file.display ++ "\x27 does not end with a filename"))
    | some input_filename =>
      let placeholder_step : Except String ReconstructionRunnerPathCollection :=
        if strContainsSub input_filename placeholder then
          let input_stem := stemOf args.input_file.file_nameD
          let output_filename :=
            strReplace input_stem placeholder (output_suffix ++ "_" ++ placeholder)
              ++ ".vtk"
          ReconstructionRunnerPathCollection.try_new true args.input_file
            args.output_dir (RPath.ofName output_filename) args.output_dm_points
            args.output_dm_grid args.output_octree
        else
          .error ("Input file does not exist or invalid file sequence pattern in input file path \x27"
            ++ (args.input_file.display ++ "\x27"))
      match args.input_file.parent with
      | some input_dir =>
        if is_dir input_dir = false ∧ input_dir ≠ RPath.empty then
          .error ("The parent directory \x27" ++
            (input_dir.display ++
              ("\x27 of the input file path \x27" ++
                (args.input_file.display ++ "\x27 does not exist"))))
        else
          placeholder_step
      | none => placeholder_step

/-- The `splashsurf_lib::AxisAlignedBoundingBox3d` value built by the
parameter translation (two 3-component corners). -/
structure AxisAlignedBoundingBox3d where
  min : ℚ × ℚ × ℚ
  max : ℚ × ℚ × ℚ
deriving DecidableEq, Repr

/-- `splashsurf_lib::SubdivisionCriterion`. -/
inductive SubdivisionCriterion where
  | MaxParticleCount (max_particles : Nat)
  | MaxParticleCountAuto
deriving DecidableEq, Repr

/-- `splashsurf_lib::SpatialDecompositionParameters`. -/
structure SpatialDecompositionParameters where
  subdivision_criterion : SubdivisionCriterion
  ghost_particle_safety_factor : Option ℚ
  enable_stitching : Bool
deriving DecidableEq, Repr

/-- `splashsurf_lib::Parameters` as assembled by the parameter translation. -/
structure Parameters where
  particle_radius : ℚ
  rest_density : ℚ
  kernel_radius : ℚ
  splash_detection_radius : Option ℚ
  cube_size : ℚ
  iso_surface_threshold : ℚ
  domain_aabb : Option AxisAlignedBoundingBox3d
  enable_multi_threading : Bool
  spatial_decomposition : Option SpatialDecompositionParameters
deriving DecidableEq, Repr

/-- Failure modes of the parameter translation: a failed `assert_eq!`
on the domain vector lengths (a panic in Rust), or a failed worker-pool
initialization. -/
inductive RunError where
  | assertion_failed
  | thread_pool_init_error
deriving DecidableEq, Repr

/-- `ReconstructionRunnerArgs`: the translated configuration
(`io_params` carries no data relevant to this development). -/
structure ReconstructionRunnerArgs where
  params : Parameters
  use_double_precision : Bool
  io_params : Unit
deriving DecidableEq, Repr

/-- Modelled behavior of `splashsurf_lib::initialize_thread_pool`
(external to this crate): building the global worker pool succeeds
exactly when it has not been built before. -/
def init_thread_pool (pool_built : Bool) (_num_threads : Nat) :
    Except RunError Unit :=
  if pool_built then .error .thread_pool_init_error else .ok ()

/-- `TryFrom<&ReconstructSubcommandArgs> for ReconstructionRunnerArgs`:
scale the multiplier-based options by the particle radius, convert the
domain bounds to a bounding box, assemble the spatial-decomposition
policy, and optionally build the worker pool (`pool_built` is the
pool's prior state). -/
def ReconstructionRunnerArgs.try_from (pool_built : Bool)
    (args : ReconstructSubcommandArgs) :
    Except RunError ReconstructionRunnerArgs :=
  let domain_aabb? : Except RunError (Option AxisAlignedBoundingBox3d) :=
    match args.domain_min, args.domain_max with
    | some domain_min, some domain_max =>
      match domain_min, domain_max with
      | [x1, y1, z1], [x2, y2, z2] =>
        .ok (some { min := (x1, y1, z1), max := (x2, y2, z2) })
      | _, _ => .error .assertion_failed
    | _, _ => .ok none
  match domain_aabb? with
  | .error e => .error e
  | .ok domain_aabb =>
    let kernel_radius := args.particle_radius * args.kernel_radius
    let splash_detection_radius :=
      args.splash_detection_radius.map (fun r => args.particle_radius * r)
    let cube_size := args.particle_radius * args.cube_size
    let spatial_decomposition : Option SpatialDecompositionParameters :=
      if args.no_octree then none
      else
        let subdivision_criterion :=
          match args.octree_max_particles with
          | some max_particles => SubdivisionCriterion.MaxParticleCount max_particles
          | none => SubdivisionCriterion.MaxParticleCountAuto
        some { subdivision_criterion
               ghost_particle_safety_factor := args.octree_ghost_margin_factor
               enable_stitching := !args.no_stitching }
    let params : Parameters :=
      { particle_radius := args.particle_radius
        rest_density := args.rest_density
        kernel_radius, splash_detection_radius, cube_size
        iso_surface_threshold := args.surface_threshold
        domain_aabb
        enable_multi_threading := args.parallelize_over_particles
        spatial_decomposition }
    let pool_step : Except RunError Unit :=
      match args.num_threads with
      | some num_threads => init_thread_pool pool_built num_threads
      | none => .ok ()
    match pool_step with
    | .error e => .error e
    | .ok _ =>
      .ok { params, use_double_precision := args.use_double_precision
            io_params := () }

/-- `log::LevelFilter`. -/
inductive LevelFilter where
  | Off
  | Error
  | Warn
  | Info
  | Debug
  | Trace
deriving DecidableEq, Repr

/-- The `VerbosityLevel` enum. -/
inductive VerbosityLevel where
  | None
  | Verbose
  | VeryVerbose
deriving DecidableEq, Repr

/-- `From<u64> for VerbosityLevel`. -/
def VerbosityLevel.from_u64 (value : Nat) : VerbosityLevel :=
  match value with
  | 0 => .None
  | 1 => .Verbose
  | 2 => .VeryVerbose
  | _ => .VeryVerbose

/-- `VerbosityLevel::into_filter`. -/
def VerbosityLevel.into_filter : VerbosityLevel → Option LevelFilter
  | .None => none
  | .Verbose => some .Debug
  | .VeryVerbose => some .Trace

/-- Rust `str::to_ascii_lowercase` (`Char.toLower` lowercases exactly
the ASCII uppercase letters). -/
def to_ascii_lowercase (s : String) : String :=
  ⟨s.data.map Char.toLower⟩

/-- The logging setup of `initialize_logging`: select the level filter
by precedence (quiet mode, then verbosity, then the `RUST_LOG`
environment value, then the default `Info`), and return it together
with the list of `error!` lines emitted for an unrecognized `RUST_LOG`
value. The `fern` dispatch itself is an I/O side effect that carries no
data out of the function. -/
def init_logging (verbosity : VerbosityLevel) (quiet_mode : Bool)
    (rust_log : Option String) : LevelFilter × List String :=
  let selection : LevelFilter × Option String :=
    if quiet_mode then
      (LevelFilter.Off, none)
    else
      match verbosity.into_filter with
      | some filter => (filter, none)
      | none =>
        match rust_log with
        | some log_level =>
          let log_level := to_ascii_lowercase log_level
          match log_level with
          | "off" => (LevelFilter.Off, none)
          | "error" => (LevelFilter.Error, none)
          | "warn" => (LevelFilter.Warn, none)
          | "info" => (LevelFilter.Info, none)
          | "debug" => (LevelFilter.Debug, none)
          | "trace" => (LevelFilter.Trace, none)
          | _ => (LevelFilter.Info, some log_level)
        | none => (LevelFilter.Info, none)
  match selection.2 with
  | some filter_level =>
    (selection.1,
      ["Unknown log filter level \x27" ++
        (filter_level ++
          "\x27 defined in \x27RUST_LOG\x27 env variable, using INFO instead.")])
  | none => (selection.1, [])

/-- Rust `Iterator::try_for_each` as used by the sequential branch of
`reconstruct_subcommand`: run the tasks in order, stopping at (and
returning) the first error. `run` is the opaque
`reconstruction::entry_point` collaborator. -/
def try_for_each {ε : Type} (run : ReconstructionRunnerPaths → Except ε Unit) :
    List ReconstructionRunnerPaths → Except ε Unit
  | [] => .ok ()
  | p :: ps =>
    match run p with
    | .ok _ => try_for_each run ps
    | .error e => .error e

/-- The tasks the sequential `try_for_each` actually executes: every
task up to and including the first failing one. -/
def executed_tasks {ε : Type} (run : ReconstructionRunnerPaths → Except ε Unit) :
    List ReconstructionRunnerPaths → List ReconstructionRunnerPaths
  | [] => []
  | p :: ps =>
    match run p with
    | .ok _ => p :: executed_tasks run ps
    | .error _ => [p]

/-- The sequential branch of `reconstruct_subcommand` together with its
final `info!` line: the batch result, and the summary line logged
exactly when the whole batch succeeded. -/
def reconstruct_sequential {ε : Type}
    (run : ReconstructionRunnerPaths → Except ε Unit)
    (paths : List ReconstructionRunnerPaths) : Except ε Unit × List String :=
  let result := try_for_each run paths
  match result with
  | .ok _ => (result, ["Successfully finished processing all inputs."])
  | .error _ => (result, [])

/-- A baseline set of raw options used to instantiate the theorems below
on concrete inputs. -/
def example_args : ReconstructSubcommandArgs :=
  { input_file := ⟨["data", "particles.xyz"]⟩, output_file := none,
    output_dir := none, particle_radius := 2, rest_density := 1000,
    kernel_radius := 3, splash_detection_radius := none, cube_size := 5,
    surface_threshold := 1, use_double_precision := false,
    domain_min := none, domain_max := none, no_octree := true,
    no_stitching := false, octree_max_particles := none,
    octree_ghost_margin_factor := none, output_dm_points := none,
    output_dm_grid := none, output_octree := none,
    parallelize_over_files := false, parallelize_over_particles := false,
    num_threads := none }

/-- The configuration the parameter translation produces from
`example_args`. -/
def example_runner : ReconstructionRunnerArgs :=
  { params :=
    { particle_radius := example_args.particle_radius
      rest_density := example_args.rest_density
      kernel_radius := example_args.particle_radius * example_args.kernel_radius
      splash_detection_radius :=
        example_args.splash_detection_radius.map
          (fun r => example_args.particle_radius * r)
      cube_size := example_args.particle_radius * example_args.cube_size
      iso_surface_threshold := example_args.surface_threshold
      domain_aabb := none
      enable_multi_threading := example_args.parallelize_over_particles
      spatial_decomposition := none }
    use_double_precision := example_args.use_double_precision
    io_params := () }

/-- Raw options with only `domain_min` supplied. -/
def example_args_lone_min : ReconstructSubcommandArgs :=
  { example_args with domain_min := some [1, 2, 3] }

def example_seq_args : ReconstructSubcommandArgs :=
  { example_args with
    input_file := RPath.ofName "frame_\x7b\x7d.xyz"
    output_file := some (RPath.ofName "custom.vtk") }

def example_noph_args : ReconstructSubcommandArgs :=
  { example_args with input_file := RPath.ofName "frame_1.xyz" }

def example_baddir_args : ReconstructSubcommandArgs :=
  { example_args with input_file := ⟨["frames", "frame_\x7b\x7d.xyz"]⟩ }

def example_seq_collection : ReconstructionRunnerPathCollection :=
  { is_sequence := true
    input_file := ⟨["frames", "frame_\x7b\x7d.xyz"]⟩
    output_file := RPath.ofName "frame_surface_\x7b\x7d.vtk"
    output_density_map_points_file := none
    output_density_map_grid_file := none
    output_octree_file := none }

def example_fs : RPath → Bool := fun p =>
  p ∈ [RPath.mk ["frames", "frame_1.xyz"], RPath.mk ["frames", "frame_2.xyz"],
       RPath.mk ["frames", "frame_3.xyz"], RPath.mk ["frames", "frame_5.xyz"]]

/-- A single reconstruction task used by the dispatcher theorems. -/
def example_task (s : String) : ReconstructionRunnerPaths :=
  ReconstructionRunnerPaths.new (RPath.ofName s) (RPath.ofName (s ++ ".vtk"))
    none none none

/-- A task runner that fails exactly on the input file `b.xyz`. -/
def example_run : ReconstructionRunnerPaths → Except String Unit := fun p =>
  if p.input_file = RPath.ofName "b.xyz" then .error "boom" else .ok ()

/-- A three-task batch whose second task fails under `example_run`. -/
def example_tasks : List ReconstructionRunnerPaths :=
  [example_task "a.xyz", example_task "b.xyz", example_task "c.xyz"]

/-- A list is a Boolean prefix of itself followed by anything. -/
theorem isPrefixOf_append_self (t r : List Char) : t.isPrefixOf (t ++ r) = true := by
  induction t with
  | nil => simp [List.isPrefixOf]
  | cons c t ih => simp [List.isPrefixOf, ih]

/-- The occurrence test finds a pattern spliced into the middle of a list. -/
theorem containsSubChars_append_mid (a b c : List Char) :
    containsSubChars (a ++ (b ++ c)) b = true := by
  induction a with
  | nil => rw [List.nil_append, containsSubChars.eq_def, isPrefixOf_append_self, Bool.true_or]
  | cons x a ih => rw [List.cons_append, containsSubChars.eq_def]; simp [ih]

/-- The substring test finds a string spliced into the middle of a string. -/
theorem strContainsSub_append_mid (a b c : String) :
    strContainsSub (a ++ (b ++ c)) b = true := by
  simp only [strContainsSub, String.data_append]
  exact containsSubChars_append_mid a.data b.data c.data

/-- Verbosity counts of two or more all map to the most verbose level. -/
theorem from_u64_of_two_le (v : Nat) (h : 2 ≤ v) :
    VerbosityLevel.from_u64 v = .VeryVerbose := by
  obtain ⟨w, rfl⟩ : ∃ w, v = w + 2 := ⟨v - 2, by omega⟩
  cases w <;> rfl

/-- Characterization of the expansion loop from an arbitrary start
index: if the substituted input file exists for the next `m` indices
and is missing at index `s + m`, the loop emits exactly the `m` tasks
for those indices, each with the diagnostic outputs suppressed. -/
theorem collect_sequence_run (is_file : RPath → Bool)
    (input_dir output_dir : RPath) (in_name out_name : String) :
    ∀ (m s fuel : Nat), m < fuel →
    (∀ k, k < m → is_file (input_dir.join (RPath.ofName
      (strReplace in_name placeholder (toString (s + k))))) = true) →
    is_file (input_dir.join (RPath.ofName
      (strReplace in_name placeholder (toString (s + m))))) = false →
    collect_sequence is_file input_dir output_dir in_name out_name fuel s =
      (List.range m).map (fun k =>
        ReconstructionRunnerPaths.new
          (input_dir.join (RPath.ofName
            (strReplace in_name placeholder (toString (s + k)))))
          (output_dir.join (RPath.ofName
            (strReplace out_name placeholder (toString (s + k)))))
          none none none) := by
  intro m
  induction m with
  | zero =>
    intro s fuel hf h1 h0
    obtain ⟨f, rfl⟩ : ∃ f, fuel = f + 1 := ⟨fuel - 1, by omega⟩
    rw [Nat.add_zero] at h0
    simp [collect_sequence, h0]
  | succ m ih =>
    intro s fuel hf hex hmiss
    obtain ⟨f, rfl⟩ : ∃ f, fuel = f + 1 := ⟨fuel - 1, by omega⟩
    have h0 : is_file (input_dir.join (RPath.ofName
        (strReplace in_name placeholder (toString s)))) = true := by
      have h := hex 0 (Nat.succ_pos m)
      rwa [Nat.add_zero] at h
    have ihs := ih (s + 1) f (by omega)
      (fun k hk => by
        have h := hex (k + 1) (by omega)
        rwa [show s + (k + 1) = s + 1 + k by omega] at h)
      (by
        have h := hmiss
        rwa [show s + (m + 1) = s + 1 + m by omega] at h)
    simp only [collect_sequence, h0, if_true]
    rw [ihs]
    have hkk : ∀ k : Nat, s + 1 + k = s + (k + 1) := fun k => by omega
    simp [List.range_succ_eq_map, List.map_map, Function.comp, hkk]


/-- When the input path is not an existing file, its filename contains
the placeholder, and the parent-directory check passes, path resolution
succeeds, deriving the output filename template from the input stem. -/
theorem try_from_sequence_ok (is_file is_dir : RPath → Bool)
    (args : ReconstructSubcommandArgs) (input_filename : String)
    (hnofile : is_file args.input_file = false)
    (hname : args.input_file.file_name = some input_filename)
    (hph : strContainsSub input_filename placeholder = true)
    (hdirok : ∀ d, args.input_file.parent = some d →
      (is_dir d = true ∨ d = RPath.empty)) :
    ReconstructionRunnerPathCollection.try_from is_file is_dir args
      = ReconstructionRunnerPathCollection.try_new true args.input_file
          args.output_dir
          (RPath.ofName (strReplace (stemOf args.input_file.file_nameD)
            placeholder ("surface" ++ "_" ++ placeholder) ++ ".vtk"))
          args.output_dm_points args.output_dm_grid args.output_octree := by
  cases hp : args.input_file.parent with
  | none => simp [ReconstructionRunnerPathCollection.try_from, hnofile, hname, hp, hph]
  | some d =>
    have hcond : ¬(is_dir d = false ∧ d ≠ RPath.empty) := by
      rcases hdirok d hp with h | h
      · simp [h]
      · simp [h]
    simp [ReconstructionRunnerPathCollection.try_from, hnofile, hname, hp, hph, hcond]


/-- The sequential `try_for_each` executes exactly the tasks up to and
including the first failing one and returns that task's error. -/
theorem seq_first_error {ε : Type} (run : ReconstructionRunnerPaths → Except ε Unit) :
    ∀ (paths : List ReconstructionRunnerPaths) (i : Nat) (hi : i < paths.length)
      (e : ε),
    (∀ j (hj : j < i), run (paths.get ⟨j, lt_trans hj hi⟩) = .ok ()) →
    run (paths.get ⟨i, hi⟩) = .error e →
    executed_tasks run paths = paths.take (i + 1)
    ∧ try_for_each run paths = .error e := by
  intro paths
  induction paths with
  | nil => intro i hi; simp at hi
  | cons p ps ih =>
    intro i hi e hpre herr
    cases i with
    | zero =>
      have hp : run p = .error e := herr
      simp [executed_tasks, try_for_each, hp]
    | succ j =>
      have hp0 : run p = .ok () := hpre 0 (Nat.succ_pos j)
      have ihj := ih j (Nat.lt_of_succ_lt_succ hi) e
        (fun k hk => hpre (k + 1) (Nat.succ_lt_succ hk))
        herr
      simp [executed_tasks, try_for_each, hp0, List.take_succ_cons, ihj.1, ihj.2]

/-- The sequential `try_for_each` succeeds when every task succeeds. -/
theorem seq_all_ok {ε : Type} (run : ReconstructionRunnerPaths → Except ε Unit) :
    ∀ (paths : List ReconstructionRunnerPaths),
    (∀ i (hi : i < paths.length), run (paths.get ⟨i, hi⟩) = .ok ()) →
    try_for_each run paths = .ok () := by
  intro paths
  induction paths with
  | nil => intro _; rfl
  | cons p ps ih =>
    intro h
    have hp : run p = .ok () := h 0 (Nat.succ_pos _)
    simp [try_for_each, hp]
    exact ih (fun i hi => h (i + 1) (Nat.succ_lt_succ hi))

/-- Claim C1: for every input path that names an existing regular file
(and no output base directory is supplied), path resolution produces a
batch with exactly one task descriptor whose output file equals the
user-supplied output path verbatim when one was given, and otherwise
equals `<input-stem>_surface.vtk`. -/
theorem claim_c1 (is_file is_dir : RPath → Bool) (fuel : Nat)
    (args : ReconstructSubcommandArgs)
    (hfile : is_file args.input_file = true)
    (hdir : args.output_dir = none) :
    (ReconstructionRunnerPathCollection.try_from is_file is_dir args).map
        (fun c => c.collect is_file fuel)
      = .ok [ReconstructionRunnerPaths.new args.input_file
          (match args.output_file with
            | some f => f
            | none =>
              RPath.ofName (stemOf args.input_file.file_nameD ++ "_" ++ "surface" ++ ".vtk"))
          args.output_dm_points args.output_dm_grid args.output_octree] := by
  cases hof : args.output_file <;>
    simp [ReconstructionRunnerPathCollection.try_from, hfile, hdir, hof,
      ReconstructionRunnerPathCollection.try_new,
      ReconstructionRunnerPathCollection.collect,
      ReconstructionRunnerPaths.new, Except.map]


/-- Witness for claim C1 at `example_args` (no user output path). -/
theorem claim_c1_witness :
    (ReconstructionRunnerPathCollection.try_from (fun _ => true) (fun _ => true)
        example_args).map (fun c => c.collect (fun _ => true) 1)
      = .ok [ReconstructionRunnerPaths.new example_args.input_file
          (RPath.ofName (stemOf example_args.input_file.file_nameD ++ "_" ++
            "surface" ++ ".vtk"))
          none none none] :=
  claim_c1 (fun _ => true) (fun _ => true) 1 example_args rfl rfl

/-- Claim C2: for every sequence collection, expansion substitutes
indices starting at 1 into the filename template, includes index `i`
exactly when all files for indices `1..i` exist (the first missing
index `n + 1` terminates expansion, so the batch has no gaps and
ignores files at higher indices, about which nothing is assumed), and
every produced task has all three diagnostic output paths absent. -/
theorem claim_c2 (is_file : RPath → Bool) (c : ReconstructionRunnerPathCollection)
    (n fuel : Nat)
    (hseq : c.is_sequence = true)
    (hfuel : n < fuel)
    (hex : ∀ i, 1 ≤ i → i ≤ n →
      is_file (c.input_file.parentD.join (RPath.ofName
        (strReplace c.input_file.file_nameD placeholder (toString i)))) = true)
    (hmiss : is_file (c.input_file.parentD.join (RPath.ofName
      (strReplace c.input_file.file_nameD placeholder (toString (n + 1))))) = false) :
    c.collect is_file fuel =
      (List.range n).map (fun k =>
        ReconstructionRunnerPaths.new
          (c.input_file.parentD.join (RPath.ofName
            (strReplace c.input_file.file_nameD placeholder (toString (k + 1)))))
          (c.output_file.parentD.join (RPath.ofName
            (strReplace c.output_file.file_nameD placeholder (toString (k + 1)))))
          none none none) := by
  have hrun := collect_sequence_run is_file c.input_file.parentD
    c.output_file.parentD c.input_file.file_nameD c.output_file.file_nameD
    n 1 fuel hfuel
    (fun k hk => by
      have h := hex (k + 1) (by omega) (by omega)
      rwa [show (k + 1 : Nat) = 1 + k by omega] at h)
    (by rwa [show (n + 1 : Nat) = 1 + n by omega] at hmiss)
  simp only [ReconstructionRunnerPathCollection.collect, hseq, if_true]
  rw [hrun]
  have hkk : ∀ k : Nat, 1 + k = k + 1 := fun k => by omega
  simp [hkk]

/-- Witness for claim C2: files exist at indices 1, 2, 3 and 5; the
batch holds exactly the tasks for indices 1-3 and ignores index 5. -/
theorem claim_c2_witness :
    ReconstructionRunnerPathCollection.collect example_fs 10 example_seq_collection
      = [ReconstructionRunnerPaths.new ⟨["frames", "frame_1.xyz"]⟩
           ⟨["frame_surface_1.vtk"]⟩ none none none,
         ReconstructionRunnerPaths.new ⟨["frames", "frame_2.xyz"]⟩
           ⟨["frame_surface_2.vtk"]⟩ none none none,
         ReconstructionRunnerPaths.new ⟨["frames", "frame_3.xyz"]⟩
           ⟨["frame_surface_3.vtk"]⟩ none none none] := by
  have h := claim_c2 example_fs example_seq_collection 3 10 rfl (by omega)
    (by intro i h1 h2; interval_cases i <;> decide)
    (by decide)
  simpa using h

/-- Counterexample to claim C3 as stated: for the pattern
`frame_\x7b\x7d.xyz` with the user-supplied output filename
`custom.vtk`, resolution still derives the template from the input
filename; the user's filename is not used. -/
theorem claim_c3_counterexample :
    example_seq_args.output_file = some (RPath.ofName "custom.vtk")
    ∧ (ReconstructionRunnerPathCollection.try_from (fun _ => false)
          (fun _ => true) example_seq_args).map (fun c => c.output_file)
        = .ok (RPath.ofName "frame_surface_\x7b\x7d.vtk")
    ∧ RPath.ofName "frame_surface_\x7b\x7d.vtk" ≠ RPath.ofName "custom.vtk" :=
  ⟨rfl, rfl, by decide⟩

/-- Claim C3 (amended): for every valid sequence pattern, the output
filename template is derived from the input filename by replacing the
placeholder token with the suffix-plus-placeholder form `surface_\x7b\x7d`
and fixing the extension to `.vtk`, regardless of whether the user
supplied an explicit output filename (a user-supplied output filename
is ignored in sequence mode). -/
theorem claim_c3_amended (is_file is_dir : RPath → Bool)
    (args : ReconstructSubcommandArgs) (input_filename : String)
    (hnofile : is_file args.input_file = false)
    (hname : args.input_file.file_name = some input_filename)
    (hph : strContainsSub input_filename placeholder = true)
    (hdirok : ∀ d, args.input_file.parent = some d →
      (is_dir d = true ∨ d = RPath.empty))
    (hout : args.output_dir = none) :
    (ReconstructionRunnerPathCollection.try_from is_file is_dir args).map
        (fun c => c.output_file)
      = .ok (RPath.ofName (strReplace (stemOf args.input_file.file_nameD)
          placeholder ("surface" ++ "_" ++ placeholder) ++ ".vtk")) := by
  rw [try_from_sequence_ok is_file is_dir args input_filename hnofile hname hph hdirok]
  simp [ReconstructionRunnerPathCollection.try_new, hout, Except.map]


/-- Witness for amended claim C3 at `example_seq_args`. -/
theorem claim_c3_witness :
    (ReconstructionRunnerPathCollection.try_from (fun _ => false)
        (fun _ => true) example_seq_args).map (fun c => c.output_file)
      = .ok (RPath.ofName (strReplace (stemOf example_seq_args.input_file.file_nameD)
          placeholder ("surface" ++ "_" ++ placeholder) ++ ".vtk")) :=
  claim_c3_amended (fun _ => false) (fun _ => true) example_seq_args
    "frame_\x7b\x7d.xyz" rfl rfl rfl (fun _ _ => Or.inl rfl) rfl

/-- Counterexample to claim C4 as stated: for the non-existing input
`frame_1.xyz` whose filename lacks the placeholder, resolution errors,
but the error message does not contain the placeholder token. -/
theorem claim_c4_counterexample :
    ReconstructionRunnerPathCollection.try_from (fun _ => false) (fun _ => true)
        example_noph_args
      = .error "Input file does not exist or invalid file sequence pattern in input file path \x27frame_1.xyz\x27"
    ∧ strContainsSub
        "Input file does not exist or invalid file sequence pattern in input file path \x27frame_1.xyz\x27"
        placeholder = false :=
  ⟨rfl, rfl⟩

/-- Claim C4 (amended): for every input path that does not name an
existing file, path resolution returns an error whenever the pattern's
parent directory does not exist (unless it denotes the current
directory) or the filename component lacks the placeholder; the
missing-directory error names the missing directory, while the
missing-placeholder error names the input path (not the placeholder
token). -/
theorem claim_c4_amended (is_file is_dir : RPath → Bool)
    (args : ReconstructSubcommandArgs) (input_filename : String)
    (hnofile : is_file args.input_file = false)
    (hname : args.input_file.file_name = some input_filename) :
    (∀ input_dir, args.input_file.parent = some input_dir →
      is_dir input_dir = false → input_dir ≠ RPath.empty →
      ReconstructionRunnerPathCollection.try_from is_file is_dir args
        = .error ("The parent directory \x27" ++
            (input_dir.display ++
              ("\x27 of the input file path \x27" ++
                (args.input_file.display ++ "\x27 does not exist"))))
      ∧ strContainsSub
          ("The parent directory \x27" ++
            (input_dir.display ++
              ("\x27 of the input file path \x27" ++
                (args.input_file.display ++ "\x27 does not exist"))))
          input_dir.display = true)
    ∧ ((∀ input_dir, args.input_file.parent = some input_dir →
          (is_dir input_dir = true ∨ input_dir = RPath.empty)) →
        strContainsSub input_filename placeholder = false →
        ReconstructionRunnerPathCollection.try_from is_file is_dir args
          = .error ("Input file does not exist or invalid file sequence pattern in input file path \x27"
              ++ (args.input_file.display ++ "\x27"))
        ∧ strContainsSub
            ("Input file does not exist or invalid file sequence pattern in input file path \x27"
              ++ (args.input_file.display ++ "\x27"))
            args.input_file.display = true) := by
  constructor
  · intro d hp hdf hde
    refine ⟨?_, strContainsSub_append_mid _ _ _⟩
    simp [ReconstructionRunnerPathCollection.try_from, hnofile, hname, hp, hdf, hde]
  · intro hdok hnoph
    refine ⟨?_, strContainsSub_append_mid _ _ _⟩
    cases hp : args.input_file.parent with
    | none =>
      simp [ReconstructionRunnerPathCollection.try_from, hnofile, hname, hp, hnoph]
    | some d =>
      have hcond : ¬(is_dir d = false ∧ d ≠ RPath.empty) := by
        rcases hdok d hp with h | h
        · simp [h]
        · simp [h]
      simp [ReconstructionRunnerPathCollection.try_from, hnofile, hname, hp,
        hnoph, hcond]

/-- Witness for amended claim C4: the missing-parent case at
`frames/frame_\x7b\x7d.xyz` with no directories present, and the
missing-placeholder case at `frame_1.xyz`. -/
theorem claim_c4_witness :
    (ReconstructionRunnerPathCollection.try_from (fun _ => false) (fun _ => false)
        example_baddir_args
      = .error ("The parent directory \x27" ++
          (RPath.display ⟨["frames"]⟩ ++
            ("\x27 of the input file path \x27" ++
              (example_baddir_args.input_file.display ++ "\x27 does not exist"))))
      ∧ strContainsSub
          ("The parent directory \x27" ++
            (RPath.display ⟨["frames"]⟩ ++
              ("\x27 of the input file path \x27" ++
                (example_baddir_args.input_file.display ++ "\x27 does not exist"))))
          (RPath.display ⟨["frames"]⟩) = true)
    ∧ (ReconstructionRunnerPathCollection.try_from (fun _ => false) (fun _ => true)
        example_noph_args
      = .error ("Input file does not exist or invalid file sequence pattern in input file path \x27"
          ++ (example_noph_args.input_file.display ++ "\x27"))
      ∧ strContainsSub
          ("Input file does not exist or invalid file sequence pattern in input file path \x27"
            ++ (example_noph_args.input_file.display ++ "\x27"))
          example_noph_args.input_file.display = true) :=
  ⟨(claim_c4_amended (fun _ => false) (fun _ => false) example_baddir_args
      "frame_\x7b\x7d.xyz" rfl rfl).1 ⟨["frames"]⟩ rfl rfl (by decide),
   (claim_c4_amended (fun _ => false) (fun _ => true) example_noph_args
      "frame_1.xyz" rfl rfl).2 (fun _ _ => Or.inl rfl) rfl⟩

/-- Claim C5: for every set of raw options, whenever the parameter
translation produces a configuration, its `kernel_radius` equals
`particle_radius` times the kernel-radius multiplier, its `cube_size`
equals `particle_radius` times the cube-size multiplier, and its
`splash_detection_radius` equals `particle_radius` times the
splash-detection multiplier when that multiplier is supplied and is
absent otherwise. -/
theorem claim_c5 (pool_built : Bool) (args : ReconstructSubcommandArgs)
    (r : ReconstructionRunnerArgs)
    (h : ReconstructionRunnerArgs.try_from pool_built args = .ok r) :
    r.params.kernel_radius = args.particle_radius * args.kernel_radius
    ∧ r.params.cube_size = args.particle_radius * args.cube_size
    ∧ r.params.splash_detection_radius
        = args.splash_detection_radius.map (fun m => args.particle_radius * m) := by
  simp only [ReconstructionRunnerArgs.try_from] at h
  repeat' split at h
  all_goals try exact Except.noConfusion h
  all_goals injection h with h'
  all_goals subst h'
  all_goals exact ⟨rfl, rfl, rfl⟩

/-- Witness for claim C5 at `example_args`. -/
theorem claim_c5_witness :
    example_runner.params.kernel_radius
        = example_args.particle_radius * example_args.kernel_radius
    ∧ example_runner.params.cube_size
        = example_args.particle_radius * example_args.cube_size
    ∧ example_runner.params.splash_detection_radius
        = example_args.splash_detection_radius.map
            (fun m => example_args.particle_radius * m) :=
  claim_c5 false example_args example_runner rfl

/-- Claim C6: the selected log level follows the precedence quiet flag
(all output disabled) over verbosity count (1 raises to Debug, 2 or
more caps at Trace) over the environment-supplied level name (matched
case-insensitively against the fixed set off, error, warn, info,
debug, trace) over the default Info level; an environment value
outside the set falls back to Info and emits exactly one warning line
naming the rejected value. -/
theorem claim_c6 (verbosity : Nat) (quiet : Bool) (rust_log : Option String) :
    (quiet = true →
      init_logging (VerbosityLevel.from_u64 verbosity) quiet rust_log
        = (LevelFilter.Off, []))
    ∧ (quiet = false → verbosity = 1 →
      init_logging (VerbosityLevel.from_u64 verbosity) quiet rust_log
        = (LevelFilter.Debug, []))
    ∧ (quiet = false → 2 ≤ verbosity →
      init_logging (VerbosityLevel.from_u64 verbosity) quiet rust_log
        = (LevelFilter.Trace, []))
    ∧ (quiet = false → verbosity = 0 → rust_log = none →
      init_logging (VerbosityLevel.from_u64 verbosity) quiet rust_log
        = (LevelFilter.Info, []))
    ∧ (∀ s, quiet = false → verbosity = 0 → rust_log = some s →
        ((to_ascii_lowercase s = "off" →
            init_logging (VerbosityLevel.from_u64 verbosity) quiet rust_log
              = (LevelFilter.Off, []))
         ∧ (to_ascii_lowercase s = "error" →
            init_logging (VerbosityLevel.from_u64 verbosity) quiet rust_log
              = (LevelFilter.Error, []))
         ∧ (to_ascii_lowercase s = "warn" →
            init_logging (VerbosityLevel.from_u64 verbosity) quiet rust_log
              = (LevelFilter.Warn, []))
         ∧ (to_ascii_lowercase s = "info" →
            init_logging (VerbosityLevel.from_u64 verbosity) quiet rust_log
              = (LevelFilter.Info, []))
         ∧ (to_ascii_lowercase s = "debug" →
            init_logging (VerbosityLevel.from_u64 verbosity) quiet rust_log
              = (LevelFilter.Debug, []))
         ∧ (to_ascii_lowercase s = "trace" →
            init_logging (VerbosityLevel.from_u64 verbosity) quiet rust_log
              = (LevelFilter.Trace, []))
         ∧ (to_ascii_lowercase s ∉
              (["off", "error", "warn", "info", "debug", "trace"] : List String) →
            init_logging (VerbosityLevel.from_u64 verbosity) quiet rust_log
              = (LevelFilter.Info,
                 ["Unknown log filter level \x27" ++
                   (to_ascii_lowercase s ++
                     "\x27 defined in \x27RUST_LOG\x27 env variable, using INFO instead.")])
            ∧ strContainsSub
                ("Unknown log filter level \x27" ++
                  (to_ascii_lowercase s ++
                    "\x27 defined in \x27RUST_LOG\x27 env variable, using INFO instead."))
                (to_ascii_lowercase s) = true))) := by
  refine ⟨?_, ?_, ?_, ?_, ?_⟩
  · intro hq; subst hq; rfl
  · intro hq hv; subst hq; subst hv; rfl
  · intro hq hv; subst hq
    rw [from_u64_of_two_le verbosity hv]
    rfl
  · intro hq hv hr; subst hq; subst hv; subst hr; rfl
  · intro s hq hv hr; subst hq; subst hv; subst hr
    refine ⟨?_, ?_, ?_, ?_, ?_, ?_, ?_⟩
    all_goals intro h
    · simp [init_logging, VerbosityLevel.from_u64, VerbosityLevel.into_filter, h]
    · simp [init_logging, VerbosityLevel.from_u64, VerbosityLevel.into_filter, h]
    · simp [init_logging, VerbosityLevel.from_u64, VerbosityLevel.into_filter, h]
    · simp [init_logging, VerbosityLevel.from_u64, VerbosityLevel.into_filter, h]
    · simp [init_logging, VerbosityLevel.from_u64, VerbosityLevel.into_filter, h]
    · simp [init_logging, VerbosityLevel.from_u64, VerbosityLevel.into_filter, h]
    · simp only [List.mem_cons, List.mem_singleton, not_or] at h
      obtain ⟨h1, h2, h3, h4, h5, h6, -⟩ := h
      constructor
      · simp only [init_logging, VerbosityLevel.from_u64, VerbosityLevel.into_filter]
        split
        all_goals simp_all
      · exact strContainsSub_append_mid _ _ _

/-- Witness for claim C6: quiet together with verbosity 2 disables
logging entirely, and the unrecognized environment value `verbose`
falls back to Info with one warning line naming it. -/
theorem claim_c6_witness :
    init_logging (VerbosityLevel.from_u64 2) true none = (LevelFilter.Off, [])
    ∧ init_logging (VerbosityLevel.from_u64 0) false (some "verbose")
        = (LevelFilter.Info,
           ["Unknown log filter level \x27" ++
             (to_ascii_lowercase "verbose" ++
               "\x27 defined in \x27RUST_LOG\x27 env variable, using INFO instead.")]) :=
  ⟨(claim_c6 2 true none).1 rfl,
   (((claim_c6 0 false (some "verbose")).2.2.2.2 "verbose" rfl rfl
      rfl).2.2.2.2.2.2 (by decide)).1⟩
/-- Claim C7: under the sequential strategy, if task `i` is reached and
fails then tasks `i+1..n` are never executed (exactly the first `i+1`
tasks run), the error of task `i` is the returned value, and when every
task succeeds exactly one summary line is logged. -/
theorem claim_c7 {ε : Type} (run : ReconstructionRunnerPaths → Except ε Unit)
    (paths : List ReconstructionRunnerPaths) :
    (∀ (i : Nat) (hi : i < paths.length) (e : ε),
      (∀ j (hj : j < i), run (paths.get ⟨j, lt_trans hj hi⟩) = .ok ()) →
      run (paths.get ⟨i, hi⟩) = .error e →
      executed_tasks run paths = paths.take (i + 1)
      ∧ reconstruct_sequential run paths = (.error e, []))
    ∧ ((∀ i (hi : i < paths.length), run (paths.get ⟨i, hi⟩) = .ok ()) →
      reconstruct_sequential run paths
        = (.ok (), ["Successfully finished processing all inputs."])) := by
  constructor
  · intro i hi e hpre herr
    have h := seq_first_error run paths i hi e hpre herr
    refine ⟨h.1, ?_⟩
    simp [reconstruct_sequential, h.2]
  · intro h
    have hok := seq_all_ok run paths h
    simp [reconstruct_sequential, hok]

/-- Witness for claim C7: in a three-task batch whose second task
fails, exactly the first two tasks execute and the second task's error
is returned; a batch of passing tasks yields the one summary line. -/
theorem claim_c7_witness :
    (executed_tasks example_run example_tasks = example_tasks.take 2
     ∧ reconstruct_sequential example_run example_tasks = (.error "boom", []))
    ∧ reconstruct_sequential example_run [example_task "a.xyz"]
        = (.ok (), ["Successfully finished processing all inputs."]) :=
  ⟨(claim_c7 example_run example_tasks).1 1 (by decide) "boom"
      (by intro j hj; interval_cases j; rfl) rfl,
   (claim_c7 example_run [example_task "a.xyz"]).2
      (by intro i hi; simp at hi; subst hi; rfl)⟩

/-- Claim C9: for every valid sequence pattern for which no file exists
at index 1, resolution produces an empty batch, and sequential dispatch
over that empty batch reports overall success with the summary line
rather than reporting the empty match as an error. -/
theorem claim_c9 {ε : Type} (run : ReconstructionRunnerPaths → Except ε Unit)
    (is_file is_dir : RPath → Bool) (args : ReconstructSubcommandArgs)
    (input_filename : String) (fuel : Nat)
    (hnofile : is_file args.input_file = false)
    (hname : args.input_file.file_name = some input_filename)
    (hph : strContainsSub input_filename placeholder = true)
    (hdirok : ∀ d, args.input_file.parent = some d →
      (is_dir d = true ∨ d = RPath.empty))
    (hfuel : 0 < fuel)
    (hmiss : is_file (args.input_file.parentD.join (RPath.ofName
      (strReplace args.input_file.file_nameD placeholder (toString 1)))) = false) :
    (ReconstructionRunnerPathCollection.try_from is_file is_dir args).map
        (fun c => c.collect is_file fuel) = .ok []
    ∧ reconstruct_sequential run ([] : List ReconstructionRunnerPaths)
        = (.ok (), ["Successfully finished processing all inputs."]) := by
  constructor
  · rw [try_from_sequence_ok is_file is_dir args input_filename hnofile hname hph hdirok]
    obtain ⟨f, rfl⟩ : ∃ f, fuel = f + 1 := ⟨fuel - 1, by omega⟩
    cases ho : args.output_dir <;>
      simp [ReconstructionRunnerPathCollection.try_new, Except.map,
        ReconstructionRunnerPathCollection.collect, collect_sequence, hmiss]
  · rfl


/-- Witness for claim C9 at the pattern `frame_\x7b\x7d.xyz` over an
empty filesystem. -/
theorem claim_c9_witness :
    (ReconstructionRunnerPathCollection.try_from (fun _ => false)
        (fun _ => true) example_seq_args).map
        (fun c => c.collect (fun _ => false) 5) = .ok []
    ∧ reconstruct_sequential (fun _ => (.ok () : Except String Unit))
        ([] : List ReconstructionRunnerPaths)
        = (.ok (), ["Successfully finished processing all inputs."]) :=
  claim_c9 (fun _ => .ok ()) (fun _ => false) (fun _ => true) example_seq_args
    "frame_\x7b\x7d.xyz" 5 rfl rfl rfl (fun _ _ => Or.inl rfl) (by omega) rfl

/-- Claim C10: if exactly one of the domain bounds reaches the parameter
translation (and the worker-pool step cannot fail), the translation
succeeds and the resulting configuration carries no domain bounding
box; the lone bound is silently dropped. -/
theorem claim_c10 (pool_built : Bool) (args : ReconstructSubcommandArgs)
    (hpool : args.num_threads = none ∨ pool_built = false)
    (hdom : ((∃ v, args.domain_min = some v) ∧ args.domain_max = none)
          ∨ (args.domain_min = none ∧ (∃ v, args.domain_max = some v))) :
    (ReconstructionRunnerArgs.try_from pool_built args).toOption.map
        (fun r => r.params.domain_aabb) = some none := by
  simp only [ReconstructionRunnerArgs.try_from]
  rcases hdom with ⟨⟨v, hmin⟩, hmax⟩ | ⟨hmin, v, hmax⟩ <;>
    rcases hpool with hnt | hpb <;>
    cases hn : args.num_threads <;>
    simp_all [init_thread_pool, Except.toOption]

/-- Witness for claim C10 at `example_args_lone_min`. -/
theorem claim_c10_witness :
    (ReconstructionRunnerArgs.try_from false example_args_lone_min).toOption.map
        (fun r => r.params.domain_aabb) = some none :=
  claim_c10 false example_args_lone_min (Or.inl rfl)
    (Or.inl ⟨⟨[1, 2, 3], rfl⟩, rfl⟩)


end Splashsurf
